import Mathlib

/-!
Shallow embedding of the Gico menu backend core: the basket-to-order
lifecycle implemented in backend/menu/views.py, with the URL table of
backend/api/urls.py. Records are plain structures; the relational store is
a structure of lists; each HTTP handler is a function from the store and
the request data to the new store and a result. Money amounts are modelled
as integers. Where the repository file holding a definition is absent from
the sources (the model and serializer modules), the definition is modelled
from the specification and says so in its doc comment.
-/

/-- A catalog item, from menu/models.py as described by the spec data model:
identifier, name, price, discount, availability flag, archived flag,
category name. -/
structure MenuItem where
  id : Nat
  name : String
  price : Int
  discount : Int
  available : Bool
  archived : Bool
  category : String
deriving DecidableEq

/-- A customer record from myauth/models.py: identifier, optional bound
session key for anonymous customers, stored full name. -/
structure CustomUser where
  id : Nat
  session_key : Option String
  fullName : String
deriving DecidableEq

/-- An order, from menu/models.py as described by the spec data model. The
status field is a plain string, as in the source. -/
structure Order where
  id : Nat
  customer : Nat
  status : String
  total_amount : Int
  payment_type : String
  city : String
  address : String
  delivery_type : String
deriving DecidableEq

/-- A basket line: the Basket model of menu/models.py, keyed by its order
and item references, holding the quantity and the captured sale price. -/
structure Basket where
  order : Nat
  item : Nat
  quantity : Int
  sale_price : Int
deriving DecidableEq

/-- The relational store: the tables the handlers touch, plus counters
supplying the next fresh primary key for rows the handlers create. -/
structure DB where
  items : List MenuItem
  users : List CustomUser
  orders : List Order
  baskets : List Basket
  nextUserId : Nat
  nextOrderId : Nat
  nextItemId : Nat
deriving DecidableEq

/-- The identity data of a request: the authenticated user id when logged
in, the session key when the session cookie already exists, and the fresh
key the session middleware would assign on request.session.save(). -/
structure Ident where
  authUser : Option Nat
  session_key : Option String
  freshKey : String
deriving DecidableEq

/-- The ways a handler run can end other than success. -/
inductive Err where
  /-- Model.DoesNotExist raised by objects.get. -/
  | doesNotExist
  /-- Http404 raised by get_object_or_404 or an explicit 404 response. -/
  | http404
  /-- AttributeError from dereferencing a missing row (None). -/
  | attributeError
  /-- An explicit 403 response. -/
  | forbidden
  /-- An explicit 400 response carrying serializer errors. -/
  | badRequest
  /-- An explicit 500 response. -/
  | serverError
deriving DecidableEq

instance {ε α : Type} [DecidableEq ε] [DecidableEq α] : DecidableEq (Except ε α) := fun a b =>
  match a, b with
  | .error e1, .error e2 =>
    if h : e1 = e2 then isTrue (by rw [h]) else isFalse (fun hc => by cases hc; exact h rfl)
  | .ok v1, .ok v2 =>
    if h : v1 = v2 then isTrue (by rw [h]) else isFalse (fun hc => by cases hc; exact h rfl)
  | .error _, .ok _ => isFalse (fun hc => by cases hc)
  | .ok _, .error _ => isFalse (fun hc => by cases hc)

/-- Modelled from the spec: the error taxonomy of spec section 7 maps
NotFound to a 404-equivalent, InvalidState to a 5xx, Forbidden to 403 and
ValidationError to 400; the project settings and exception-handler
configuration that fix the surfaced status codes are not in src. -/
def statusOf : Err → Nat
  | .doesNotExist => 404
  | .http404 => 404
  | .attributeError => 500
  | .forbidden => 403
  | .badRequest => 400
  | .serverError => 500

/-- Modelled from the spec: the default quantity of a freshly created
Basket row (menu/models.py is not in src). The accumulation example of the
spec, two adds of count 2 giving quantity 4, forces the default 0. -/
def basketDefaultQuantity : Int := 0

/-- Modelled from the spec: Order.calculate_total_amount of menu/models.py
(not in src) — the sum over the basket lines of the order of sale price
times quantity. -/
def calculate_total_amount (db : DB) (oid : Nat) : Int :=
  ((db.baskets.filter (fun b => b.order == oid)).map
    (fun b => b.sale_price * b.quantity)).sum

/-- Modelled from the spec: CustomUser.update_name of myauth/models.py
(not in src) — store the given full name on the customer record. -/
def update_name (db : DB) (cid : Nat) (newName : String) : DB :=
  { db with users := (db.users.map
      (fun u => if u.id == cid then { u with fullName := newName } else u)) }

/-- Identity resolution on the write paths of BasketAPIView.post and
BasketAPIView.delete (views.py lines 104 to 111 and 127 to 134): an
authenticated caller is their account; otherwise the session key is
created when absent and a CustomUser bound to it is fetched or created. -/
def resolveCustomer (db : DB) (req : Ident) : DB × Nat :=
  match req.authUser with
  | some uid => (db, uid)
  | none =>
    let key := match req.session_key with
      | some k => k
      | none => req.freshKey
    match db.users.find? (fun u => u.session_key == some key) with
    | some u => (db, u.id)
    | none =>
      ({ db with
          users := db.users ++ [{ id := db.nextUserId, session_key := some key, fullName := "" }],
          nextUserId := db.nextUserId + 1 },
       db.nextUserId)

/-- Identity resolution on the read path of BasketAPIView.get (views.py
lines 90 to 95): the authenticated id, or the first CustomUser filtered by
the session key; none when no such user is bound yet. -/
def customerForGet (db : DB) (req : Ident) : Option Nat :=
  match req.authUser with
  | some uid => some uid
  | none => (db.users.find? (fun u => u.session_key == req.session_key)).map (fun u => u.id)

/-- BasketAPIView.get (views.py lines 89 to 99): resolve the customer —
dereferencing the missing anonymous record raises AttributeError — then
return the lines of the active order; filtering lines by a missing order
yields the empty list. -/
def basketGetH (db : DB) (req : Ident) : Except Err (List Basket) :=
  match customerForGet db req with
  | none => Except.error Err.attributeError
  | some cid =>
    match db.orders.find? (fun o => o.customer == cid && o.status == "active") with
    | none => Except.ok []
    | some o => Except.ok (db.baskets.filter (fun b => b.order == o.id))

/-- The fresh active order Order.objects.get_or_create builds on views.py
line 113: status active, zero total, blank delivery fields. -/
def newActiveOrder (db : DB) (cid : Nat) : Order :=
  { id := db.nextOrderId, customer := cid, status := "active", total_amount := 0,
    payment_type := "", city := "", address := "", delivery_type := "" }

/-- Order.objects.get_or_create(customer, status=active, total_amount=0)
of views.py line 113: the lookup filters on all three keyword values. -/
def getOrCreateActiveOrder (db : DB) (cid : Nat) : DB × Order :=
  match db.orders.find? (fun o =>
      o.customer == cid && o.status == "active" && o.total_amount == 0) with
  | some o => (db, o)
  | none =>
    ({ db with orders := db.orders ++ [newActiveOrder db cid],
               nextOrderId := db.nextOrderId + 1 },
     newActiveOrder db cid)

/-- The line as saved by views.py lines 115 to 118: sale price set to
price minus discount of the current catalog row, quantity incremented. -/
def updatedLine (b : Basket) (it : MenuItem) (count : Int) : Basket :=
  { b with sale_price := it.price - it.discount, quantity := b.quantity + count }

/-- The line Basket.objects.get_or_create builds on views.py line 114,
after the mutation of lines 115 to 118 is applied to it. -/
def newLine (o : Order) (it : MenuItem) (count : Int) : Basket :=
  { order := o.id, item := it.id, quantity := basketDefaultQuantity + count,
    sale_price := it.price - it.discount }

/-- Basket.objects.get_or_create(order, item) of views.py line 114
followed by the save of lines 115 to 118. -/
def addLine (db : DB) (o : Order) (it : MenuItem) (count : Int) : DB × Basket :=
  match db.baskets.find? (fun b => b.order == o.id && b.item == it.id) with
  | some b0 =>
    ({ db with baskets := (db.baskets.map
        (fun b => if b.order == o.id && b.item == it.id then updatedLine b0 it count else b)) },
     updatedLine b0 it count)
  | none =>
    ({ db with baskets := db.baskets ++ [newLine o it count] }, newLine o it count)

/-- The body of BasketAPIView.post after the item is fetched: resolve the
customer, get or create the active order, get or create and save the
line. -/
def basketAddGo (db : DB) (req : Ident) (it : MenuItem) (count : Int) : DB × Basket :=
  let p := resolveCustomer db req
  let q := getOrCreateActiveOrder p.1 p.2
  addLine q.1 q.2 it count

/-- BasketAPIView.post (views.py lines 101 to 121): fetch the item — a
missing id raises DoesNotExist — resolve the customer, get or create the
active order with zero total, get or create the line for the order and
item, then set its sale price to price minus discount and add the count to
its quantity. -/
def basketAddH (db : DB) (req : Ident) (itemId : Nat) (count : Int) :
    DB × Except Err Basket :=
  match db.items.find? (fun it => it.id == itemId) with
  | none => (db, Except.error Err.doesNotExist)
  | some it => ((basketAddGo db req it count).1, Except.ok (basketAddGo db req it count).2)

/-- The basket rows of one order, Basket.objects.filter(order=order). -/
def linesOf (db : DB) (oid : Nat) : List Basket :=
  db.baskets.filter (fun x => x.order == oid)

/-- The save of views.py lines 139 to 140: the quantity of the line of the
order and item drops by count. -/
def decrementLine (db : DB) (oid itemId : Nat) (count : Int) : DB :=
  { db with baskets := (db.baskets.map
      (fun x => if x.order == oid && x.item == itemId then
                  { x with quantity := x.quantity - count } else x)) }

/-- basket_item.delete() of views.py line 142. -/
def deleteLine (db : DB) (oid itemId : Nat) : DB :=
  { db with baskets := (db.baskets.filter
      (fun x => !(x.order == oid && x.item == itemId))) }

/-- order.delete() of views.py line 145. -/
def deleteOrder (db : DB) (oid : Nat) : DB :=
  { db with orders := (db.orders.filter (fun x => !(x.id == oid))) }

/-- The branchwork of BasketAPIView.delete once the active order is in
hand (views.py lines 137 to 152). -/
def removeFromOrder (db : DB) (o : Order) (itemId : Nat) (count : Int) :
    DB × Except Err (List Basket) :=
  match db.baskets.find? (fun b => b.order == o.id && b.item == itemId) with
  | none => (db, Except.error Err.attributeError)
  | some b =>
    if count < b.quantity then
      (decrementLine db o.id itemId count,
       Except.ok (linesOf (decrementLine db o.id itemId count) o.id))
    else
      if (deleteLine db o.id itemId).baskets.any (fun x => x.order == o.id) then
        (deleteLine db o.id itemId,
         Except.ok (linesOf (deleteLine db o.id itemId) o.id))
      else
        (deleteOrder (deleteLine db o.id itemId) o.id, Except.ok [])

/-- BasketAPIView.delete (views.py lines 123 to 152): resolve the customer
(the same get-or-create as on post), take the first active order and the
line for the item — dereferencing a missing one raises AttributeError —
then either decrement the quantity, or delete the line and, when no lines
remain on the order, delete the order and answer with the empty list. -/
def basketDeleteH (db : DB) (req : Ident) (itemId : Nat) (count : Int) :
    DB × Except Err (List Basket) :=
  match (resolveCustomer db req).1.orders.find? (fun o =>
      o.customer == (resolveCustomer db req).2 && o.status == "active") with
  | none => ((resolveCustomer db req).1, Except.error Err.attributeError)
  | some o => removeFromOrder (resolveCustomer db req).1 o itemId count

/-- OrderAPIView.post (views.py lines 169 to 178): the finalize step. The
customer identifier is request.user.id — None for an anonymous caller, in
which case the filter matches no order. With an active order, set its
total to calculate_total_amount and its status to pending and answer with
the order id; otherwise answer 500. -/
def finalizeOrder (db : DB) (oid : Nat) (t : Int) : DB :=
  { db with orders := (db.orders.map
      (fun x => if x.id == oid then { x with total_amount := t, status := "pending" } else x)) }

def orderFinalizeH (db : DB) (req : Ident) : DB × Except Err Nat :=
  match req.authUser with
  | none => (db, Except.error Err.serverError)
  | some cid =>
    match db.orders.find? (fun o => o.customer == cid && o.status == "active") with
    | none => (db, Except.error Err.serverError)
    | some o =>
      (finalizeOrder db o.id (calculate_total_amount db o.id), Except.ok o.id)

/-- The optional fields of the order-detail update request body. -/
structure OrderDetailData where
  fullName : Option String
  paymentType : Option String
  city : Option String
  address : Option String
  deliveryType : Option String
deriving DecidableEq

/-- OrderDetailAPIView.post (views.py lines 203 to 217): fetch the order by
id through get_object_or_404, write the full name onto the customer
record, merge each present field over the prior value, carry total_amount
forward unchanged, set status to payment and answer with the order id. -/
def priorName (db : DB) (cid : Nat) : String :=
  match db.users.find? (fun u => u.id == cid) with
  | some u => u.fullName
  | none => ""

/-- The merged order of views.py lines 207 to 213: each present field laid
over the prior value, total carried forward unchanged, status payment. -/
def attachedOrder (o : Order) (data : OrderDetailData) : Order :=
  { o with
      payment_type := data.paymentType.getD o.payment_type,
      city := data.city.getD o.city,
      address := data.address.getD o.address,
      delivery_type := data.deliveryType.getD o.delivery_type,
      total_amount := o.total_amount,
      status := "payment" }

/-- order.save() writing one row back by primary key. -/
def setOrder (db : DB) (oid : Nat) (o2 : Order) : DB :=
  { db with orders := (db.orders.map (fun x => if x.id == oid then o2 else x)) }

def orderAttachH (db : DB) (oid : Nat) (data : OrderDetailData) : DB × Except Err Nat :=
  match db.orders.find? (fun o => o.id == oid) with
  | none => (db, Except.error Err.http404)
  | some o =>
    (setOrder (update_name db o.customer (data.fullName.getD (priorName db o.customer)))
       o.id (attachedOrder o data),
     Except.ok o.id)

/-- MenuListView.list (views.py lines 42 to 53): the non-archived available
items, optionally narrowed to a category fetched by name. -/
def menuListH (db : DB) (categories : List String) (category : Option String) :
    Except Err (List MenuItem) :=
  let qs := db.items.filter (fun it => !it.archived && it.available)
  match category with
  | none => Except.ok qs
  | some c =>
    if categories.contains c then
      Except.ok (qs.filter (fun it => it.category == c))
    else
      Except.error Err.doesNotExist

/-- MenuItemDetailView (views.py lines 56 to 75): lookup over all items by
id, with no archived or available filter; a missing id is Http404. -/
def menuItemDetailH (db : DB) (id : Nat) : Except Err MenuItem :=
  match db.items.find? (fun it => it.id == id) with
  | none => Except.error Err.http404
  | some it => Except.ok it

/-- The request body of ItemView.post. -/
structure ItemPayload where
  name : String
  price : Int
  discount : Int
  available : Bool
  category : String
deriving DecidableEq

/-- Modelled from the spec: the validity check of
MenuItemManagerSerializer and MenuItemSerializer (serializers.py is not in
src) — the price is non-negative and the discount lies between zero and
the price, per the spec data model. -/
def itemFieldsValid (price discount : Int) : Bool :=
  0 ≤ price && 0 ≤ discount && discount ≤ price

/-- ItemView.post (views.py lines 249 to 268): validate and create the
item. The source has no privilege check on this handler; the is_staff
argument is therefore unused. -/
def itemPostH (db : DB) (_is_staff : Bool) (p : ItemPayload) : DB × Except Err MenuItem :=
  if itemFieldsValid p.price p.discount then
    let it : MenuItem := { id := db.nextItemId, name := p.name, price := p.price,
                           discount := p.discount, available := p.available,
                           archived := false, category := p.category }
    ({ db with items := db.items ++ [it], nextItemId := db.nextItemId + 1 }, Except.ok it)
  else
    (db, Except.error Err.badRequest)

/-- The partial request body of ItemView.put. -/
structure ItemPatch where
  name : Option String
  price : Option Int
  discount : Option Int
  available : Option Bool
  archived : Option Bool
  category : Option String
deriving DecidableEq

/-- ItemView.put (views.py lines 270 to 298): 403 for a non-staff caller,
404 for a missing item, else merge the present fields, validate and
save. -/
def itemPutH (db : DB) (is_staff : Bool) (pk : Nat) (p : ItemPatch) :
    DB × Except Err MenuItem :=
  if !is_staff then (db, Except.error Err.forbidden)
  else
    match db.items.find? (fun it => it.id == pk) with
    | none => (db, Except.error Err.http404)
    | some it =>
      let it2 : MenuItem := { it with
          name := p.name.getD it.name,
          price := p.price.getD it.price,
          discount := p.discount.getD it.discount,
          available := p.available.getD it.available,
          archived := p.archived.getD it.archived,
          category := p.category.getD it.category }
      if itemFieldsValid it2.price it2.discount then
        ({ db with items := db.items.map (fun x => if x.id == pk then it2 else x) },
         Except.ok it2)
      else
        (db, Except.error Err.badRequest)

/-- ItemView.delete (views.py lines 300 to 325): 403 for a non-staff
caller, 404 for a missing item, else set the archived flag. -/
def itemDeleteH (db : DB) (is_staff : Bool) (itemId : Nat) : DB × Except Err Unit :=
  if !is_staff then (db, Except.error Err.forbidden)
  else
    match db.items.find? (fun it => it.id == itemId) with
    | none => (db, Except.error Err.http404)
    | some _ =>
      ({ db with items := (db.items.map
          (fun x => if x.id == itemId then { x with archived := true } else x)) },
       Except.ok ())

/-- The views reachable from the URL table of backend/api/urls.py. -/
inductive ViewRef where
  | menuListView
  | menuItemDetailView
  | itemView
  | tagView
  | categoryApiView
  | basketAPIView
  | orderAPIView
  | orderDetailAPIView
  | loginApiView
  | logoutApiView
  | registerApiView
  | profileAPIView
deriving DecidableEq

/-- The urlpatterns list of backend/api/urls.py, lines 8 to 22, as written
in the source: the entry for the path order/<int:id>/ names OrderAPIView,
not OrderDetailAPIView. -/
def urlpatterns : List (String × ViewRef) :=
  [("menu/", ViewRef.menuListView),
   ("menu/<int:id>/", ViewRef.menuItemDetailView),
   ("item/", ViewRef.itemView),
   ("tags/", ViewRef.tagView),
   ("category/", ViewRef.categoryApiView),
   ("basket/", ViewRef.basketAPIView),
   ("basket/<int:id>/", ViewRef.basketAPIView),
   ("order/", ViewRef.orderAPIView),
   ("order/<int:id>/", ViewRef.orderAPIView),
   ("login/", ViewRef.loginApiView),
   ("logout/", ViewRef.logoutApiView),
   ("register/", ViewRef.registerApiView),
   ("profile/", ViewRef.profileAPIView)]

/-- URL dispatch: the view bound to a path pattern. -/
def resolveView (p : String) : Option ViewRef :=
  (urlpatterns.find? (fun e => e.1 == p)).map (fun e => e.2)

/-- A POST to /order/(id)/ as the server dispatches it: the view named in
the URL table for that pattern handles it. OrderAPIView.post ignores the
id keyword argument; OrderDetailAPIView.post would use it. -/
def postOrderDetailRoute (db : DB) (req : Ident) (oid : Nat) (data : OrderDetailData) :
    DB × Except Err Nat :=
  match resolveView "order/<int:id>/" with
  | some ViewRef.orderAPIView => orderFinalizeH db req
  | some ViewRef.orderDetailAPIView => orderAttachH db oid data
  | _ => (db, Except.error Err.http404)

/-- One basket or order operation, as named by the spec core: get basket,
add to basket, remove from basket, finalize, attach details. -/
inductive Op where
  | basketGet (req : Ident)
  | basketAdd (req : Ident) (itemId : Nat) (count : Int)
  | basketRemove (req : Ident) (itemId : Nat) (count : Int)
  | orderFinalize (req : Ident)
  | orderAttach (oid : Nat) (data : OrderDetailData)
deriving DecidableEq

/-- The store after one operation; a run that ends in an error keeps the
store it had reached (the handlers mutate nothing after the point where
they can fail, except the get-or-create of the customer record). -/
def applyOp (db : DB) : Op → DB
  | .basketGet _ => db
  | .basketAdd req i c => (basketAddH db req i c).1
  | .basketRemove req i c => (basketDeleteH db req i c).1
  | .orderFinalize req => (orderFinalizeH db req).1
  | .orderAttach oid d => (orderAttachH db oid d).1

/-- The store after a sequence of operations. -/
def applyOps (db : DB) (ops : List Op) : DB :=
  ops.foldl applyOp db

/-- Two orders witnessing a duplicated active order: both active, same
customer. -/
def activeDup (a b : Order) : Prop :=
  a.status = "active" ∧ b.status = "active" ∧ a.customer = b.customer

instance : DecidableRel activeDup := fun a b => by
  unfold activeDup
  infer_instance

/-- No two entries of an order table are both active for the same
customer. -/
def ordersOk (l : List Order) : Prop :=
  l.Pairwise (fun a b => ¬ activeDup a b)

instance (l : List Order) : Decidable (ordersOk l) := by
  unfold ordersOk
  infer_instance

/-- Every active order in the table has zero total amount. -/
def activesZero (l : List Order) : Prop :=
  ∀ o ∈ l, o.status = "active" → o.total_amount = 0

instance (l : List Order) : Decidable (activesZero l) := by
  unfold activesZero
  infer_instance

/-- At most one active order per customer, over the store. -/
def atMostOneActive (db : DB) : Prop :=
  ordersOk db.orders

instance (db : DB) : Decidable (atMostOneActive db) := by
  unfold atMostOneActive
  infer_instance

/-- Every active order of the store has zero total: active orders are
created with zero total and nothing changes a total while the status
stays active. -/
def activeZero (db : DB) : Prop :=
  activesZero db.orders

instance (db : DB) : Decidable (activeZero db) := by
  unfold activeZero
  infer_instance

/-- Two basket lines with the same key: same order, same item. -/
def sameLineKey (a b : Basket) : Prop :=
  a.order = b.order ∧ a.item = b.item

instance : DecidableRel sameLineKey := fun a b => by
  unfold sameLineKey
  infer_instance

/-- No two lines of a basket table share an order and item pair. -/
def linesOk (l : List Basket) : Prop :=
  l.Pairwise (fun a b => ¬ sameLineKey a b)

instance (l : List Basket) : Decidable (linesOk l) := by
  unfold linesOk
  infer_instance

/-- At most one basket line per order and item pair, over the store. -/
def linesUnique (db : DB) : Prop :=
  linesOk db.baskets

instance (db : DB) : Decidable (linesUnique db) := by
  unfold linesUnique
  infer_instance

/-- The store invariant the operations preserve. -/
def WF (db : DB) : Prop :=
  atMostOneActive db ∧ activeZero db ∧ linesUnique db

instance (db : DB) : Decidable (WF db) := by
  unfold WF
  infer_instance

/-! ## Frame lemmas for the handler stages -/

theorem resolveCustomer_orders (db : DB) (req : Ident) :
    (resolveCustomer db req).1.orders = db.orders := by
  unfold resolveCustomer
  split
  · rfl
  · dsimp only
    split <;> rfl

theorem resolveCustomer_baskets (db : DB) (req : Ident) :
    (resolveCustomer db req).1.baskets = db.baskets := by
  unfold resolveCustomer
  split
  · rfl
  · dsimp only
    split <;> rfl

theorem resolveCustomer_items (db : DB) (req : Ident) :
    (resolveCustomer db req).1.items = db.items := by
  unfold resolveCustomer
  split
  · rfl
  · dsimp only
    split <;> rfl

theorem resolveCustomer_auth (db : DB) (req : Ident) (c : Nat)
    (h : req.authUser = some c) : resolveCustomer db req = (db, c) := by
  unfold resolveCustomer
  rw [h]

theorem getOrCreateActiveOrder_baskets (db : DB) (cid : Nat) :
    (getOrCreateActiveOrder db cid).1.baskets = db.baskets := by
  unfold getOrCreateActiveOrder
  split <;> rfl

theorem getOrCreateActiveOrder_items (db : DB) (cid : Nat) :
    (getOrCreateActiveOrder db cid).1.items = db.items := by
  unfold getOrCreateActiveOrder
  split <;> rfl

theorem addLine_orders (db : DB) (o : Order) (it : MenuItem) (c : Int) :
    (addLine db o it c).1.orders = db.orders := by
  unfold addLine
  split <;> rfl

theorem addLine_items (db : DB) (o : Order) (it : MenuItem) (c : Int) :
    (addLine db o it c).1.items = db.items := by
  unfold addLine
  split <;> rfl

theorem basketAddGo_eq (db : DB) (req : Ident) (it : MenuItem) (c : Int) :
    basketAddGo db req it c =
      addLine (getOrCreateActiveOrder (resolveCustomer db req).1 (resolveCustomer db req).2).1
        (getOrCreateActiveOrder (resolveCustomer db req).1 (resolveCustomer db req).2).2 it c :=
  rfl

/-! ## Branch equations for the handlers -/

theorem getOrCreateActiveOrder_found (db : DB) (cid : Nat) (o : Order)
    (hfind : db.orders.find? (fun o =>
      o.customer == cid && o.status == "active" && o.total_amount == 0) = some o) :
    getOrCreateActiveOrder db cid = (db, o) := by
  unfold getOrCreateActiveOrder
  rw [hfind]

theorem getOrCreateActiveOrder_new (db : DB) (cid : Nat)
    (hfind : db.orders.find? (fun o =>
      o.customer == cid && o.status == "active" && o.total_amount == 0) = none) :
    getOrCreateActiveOrder db cid =
      ({ db with orders := db.orders ++ [newActiveOrder db cid],
                 nextOrderId := db.nextOrderId + 1 },
       newActiveOrder db cid) := by
  unfold getOrCreateActiveOrder
  rw [hfind]

theorem addLine_found (db : DB) (o : Order) (it : MenuItem) (c : Int) (b0 : Basket)
    (hfind : db.baskets.find? (fun b => b.order == o.id && b.item == it.id) = some b0) :
    addLine db o it c =
      ({ db with baskets := (db.baskets.map
          (fun b => if b.order == o.id && b.item == it.id then updatedLine b0 it c else b)) },
       updatedLine b0 it c) := by
  unfold addLine
  rw [hfind]

theorem addLine_new (db : DB) (o : Order) (it : MenuItem) (c : Int)
    (hfind : db.baskets.find? (fun b => b.order == o.id && b.item == it.id) = none) :
    addLine db o it c =
      ({ db with baskets := db.baskets ++ [newLine o it c] }, newLine o it c) := by
  unfold addLine
  rw [hfind]

theorem basketAddH_noItem (db : DB) (req : Ident) (itemId : Nat) (count : Int)
    (hfind : db.items.find? (fun it => it.id == itemId) = none) :
    basketAddH db req itemId count = (db, Except.error Err.doesNotExist) := by
  unfold basketAddH
  rw [hfind]

theorem basketAddH_item (db : DB) (req : Ident) (itemId : Nat) (count : Int) (it : MenuItem)
    (hfind : db.items.find? (fun it => it.id == itemId) = some it) :
    basketAddH db req itemId count =
      ((basketAddGo db req it count).1, Except.ok (basketAddGo db req it count).2) := by
  unfold basketAddH
  rw [hfind]

theorem basketDeleteH_noOrder (db : DB) (req : Ident) (itemId : Nat) (count : Int)
    (hfind : (resolveCustomer db req).1.orders.find? (fun o =>
      o.customer == (resolveCustomer db req).2 && o.status == "active") = none) :
    basketDeleteH db req itemId count =
      ((resolveCustomer db req).1, Except.error Err.attributeError) := by
  unfold basketDeleteH
  rw [hfind]

theorem basketDeleteH_order (db : DB) (req : Ident) (itemId : Nat) (count : Int) (o : Order)
    (hfind : (resolveCustomer db req).1.orders.find? (fun o =>
      o.customer == (resolveCustomer db req).2 && o.status == "active") = some o) :
    basketDeleteH db req itemId count =
      removeFromOrder (resolveCustomer db req).1 o itemId count := by
  unfold basketDeleteH
  rw [hfind]

theorem removeFromOrder_noLine (db : DB) (o : Order) (itemId : Nat) (count : Int)
    (hfind : db.baskets.find? (fun b => b.order == o.id && b.item == itemId) = none) :
    removeFromOrder db o itemId count = (db, Except.error Err.attributeError) := by
  unfold removeFromOrder
  rw [hfind]

theorem removeFromOrder_dec (db : DB) (o : Order) (itemId : Nat) (count : Int) (b : Basket)
    (hfind : db.baskets.find? (fun b => b.order == o.id && b.item == itemId) = some b)
    (hlt : count < b.quantity) :
    removeFromOrder db o itemId count =
      (decrementLine db o.id itemId count,
       Except.ok (linesOf (decrementLine db o.id itemId count) o.id)) := by
  unfold removeFromOrder
  rw [hfind]
  simp only [if_pos hlt]

theorem removeFromOrder_del_keep (db : DB) (o : Order) (itemId : Nat) (count : Int) (b : Basket)
    (hfind : db.baskets.find? (fun b => b.order == o.id && b.item == itemId) = some b)
    (hge : ¬ count < b.quantity)
    (hany : (deleteLine db o.id itemId).baskets.any (fun x => x.order == o.id) = true) :
    removeFromOrder db o itemId count =
      (deleteLine db o.id itemId,
       Except.ok (linesOf (deleteLine db o.id itemId) o.id)) := by
  unfold removeFromOrder
  rw [hfind]
  simp only [if_neg hge, hany, if_pos]

theorem removeFromOrder_del_all (db : DB) (o : Order) (itemId : Nat) (count : Int) (b : Basket)
    (hfind : db.baskets.find? (fun b => b.order == o.id && b.item == itemId) = some b)
    (hge : ¬ count < b.quantity)
    (hany : (deleteLine db o.id itemId).baskets.any (fun x => x.order == o.id) = false) :
    removeFromOrder db o itemId count =
      (deleteOrder (deleteLine db o.id itemId) o.id, Except.ok []) := by
  unfold removeFromOrder
  rw [hfind]
  simp only [if_neg hge, hany, Bool.false_eq_true, if_neg, if_false]

theorem orderFinalizeH_anon (db : DB) (req : Ident) (hauth : req.authUser = none) :
    orderFinalizeH db req = (db, Except.error Err.serverError) := by
  unfold orderFinalizeH
  rw [hauth]

theorem orderFinalizeH_noActive (db : DB) (req : Ident) (c : Nat)
    (hauth : req.authUser = some c)
    (hfind : db.orders.find? (fun o => o.customer == c && o.status == "active") = none) :
    orderFinalizeH db req = (db, Except.error Err.serverError) := by
  unfold orderFinalizeH
  rw [hauth]
  dsimp only
  rw [hfind]

theorem orderFinalizeH_active (db : DB) (req : Ident) (c : Nat) (o : Order)
    (hauth : req.authUser = some c)
    (hfind : db.orders.find? (fun o => o.customer == c && o.status == "active") = some o) :
    orderFinalizeH db req =
      (finalizeOrder db o.id (calculate_total_amount db o.id), Except.ok o.id) := by
  unfold orderFinalizeH
  rw [hauth]
  dsimp only
  rw [hfind]

theorem orderAttachH_none (db : DB) (oid : Nat) (data : OrderDetailData)
    (hfind : db.orders.find? (fun o => o.id == oid) = none) :
    orderAttachH db oid data = (db, Except.error Err.http404) := by
  unfold orderAttachH
  rw [hfind]

theorem orderAttachH_some (db : DB) (oid : Nat) (data : OrderDetailData) (o : Order)
    (hfind : db.orders.find? (fun o => o.id == oid) = some o) :
    orderAttachH db oid data =
      (setOrder (update_name db o.customer (data.fullName.getD (priorName db o.customer)))
         o.id (attachedOrder o data),
       Except.ok o.id) := by
  unfold orderAttachH
  rw [hfind]

theorem basketGetH_noUser (db : DB) (req : Ident)
    (h : customerForGet db req = none) :
    basketGetH db req = Except.error Err.attributeError := by
  unfold basketGetH
  rw [h]

theorem basketGetH_noActive (db : DB) (req : Ident) (cid : Nat)
    (hc : customerForGet db req = some cid)
    (hfind : db.orders.find? (fun o => o.customer == cid && o.status == "active") = none) :
    basketGetH db req = Except.ok [] := by
  unfold basketGetH
  rw [hc]
  dsimp only
  rw [hfind]

theorem basketGetH_active (db : DB) (req : Ident) (cid : Nat) (o : Order)
    (hc : customerForGet db req = some cid)
    (hfind : db.orders.find? (fun o => o.customer == cid && o.status == "active") = some o) :
    basketGetH db req = Except.ok (db.baskets.filter (fun b => b.order == o.id)) := by
  unfold basketGetH
  rw [hc]
  dsimp only
  rw [hfind]

/-! ## Invariant preservation -/

theorem ordersOk_filter {l : List Order} (p : Order → Bool) (h : ordersOk l) :
    ordersOk (l.filter p) :=
  List.Pairwise.sublist (List.filter_sublist l) h

theorem activesZero_filter {l : List Order} (p : Order → Bool) (h : activesZero l) :
    activesZero (l.filter p) := by
  intro o ho
  exact h o (List.mem_filter.mp ho).1

theorem linesOk_filter {l : List Basket} (p : Basket → Bool) (h : linesOk l) :
    linesOk (l.filter p) :=
  List.Pairwise.sublist (List.filter_sublist l) h

theorem ordersOk_map {l : List Order} {f : Order → Order}
    (hf : ∀ x, f x = x ∨ (f x).status ≠ "active") (h : ordersOk l) :
    ordersOk (l.map f) := by
  refine List.Pairwise.map f ?_ h
  intro a b hab hdup
  rcases hf a with ha | ha
  · rcases hf b with hb | hb
    · exact hab (by rwa [ha, hb] at hdup)
    · exact hb hdup.2.1
  · exact ha hdup.1

theorem activesZero_map {l : List Order} {f : Order → Order}
    (hf : ∀ x, f x = x ∨ (f x).status ≠ "active") (h : activesZero l) :
    activesZero (l.map f) := by
  intro o ho hact
  rcases List.mem_map.mp ho with ⟨x, hx, hfx⟩
  rcases hf x with h1 | h1
  · subst hfx
    rw [h1] at hact ⊢
    exact h x hx hact
  · subst hfx
    exact absurd hact h1

theorem linesOk_map {l : List Basket} {f : Basket → Basket}
    (hf : ∀ x, (f x).order = x.order ∧ (f x).item = x.item) (h : linesOk l) :
    linesOk (l.map f) := by
  refine List.Pairwise.map f ?_ h
  intro a b hab hdup
  apply hab
  constructor
  · rw [← (hf a).1, ← (hf b).1]
    exact hdup.1
  · rw [← (hf a).2, ← (hf b).2]
    exact hdup.2

theorem ordersOk_append {l : List Order} {o : Order}
    (h : ordersOk l) (hnew : ∀ a ∈ l, ¬ activeDup a o) : ordersOk (l ++ [o]) := by
  rw [ordersOk, List.pairwise_append]
  refine ⟨h, List.pairwise_singleton _ _, ?_⟩
  intro a ha b hb
  rcases List.mem_singleton.mp hb with rfl
  exact hnew a ha

theorem linesOk_append {l : List Basket} {b : Basket}
    (h : linesOk l) (hnew : ∀ a ∈ l, ¬ sameLineKey a b) : linesOk (l ++ [b]) := by
  rw [linesOk, List.pairwise_append]
  refine ⟨h, List.pairwise_singleton _ _, ?_⟩
  intro a ha x hx
  rcases List.mem_singleton.mp hx with rfl
  exact hnew a ha

theorem getOrCreateActiveOrder_ok (db : DB) (cid : Nat)
    (h1 : ordersOk db.orders) (h2 : activesZero db.orders) :
    ordersOk (getOrCreateActiveOrder db cid).1.orders ∧
      activesZero (getOrCreateActiveOrder db cid).1.orders := by
  cases hfind : db.orders.find? (fun o =>
      o.customer == cid && o.status == "active" && o.total_amount == 0) with
  | some o =>
    rw [getOrCreateActiveOrder_found db cid o hfind]
    exact ⟨h1, h2⟩
  | none =>
    rw [getOrCreateActiveOrder_new db cid hfind]
    dsimp only
    constructor
    · apply ordersOk_append h1
      intro a ha hdup
      have hnp := List.find?_eq_none.mp hfind a ha
      apply hnp
      have hact : a.status = "active" := hdup.1
      have hcust : a.customer = cid := hdup.2.2
      have hz : a.total_amount = 0 := h2 a ha hact
      simp [hact, hcust, hz]
    · intro o ho hact
      rcases List.mem_append.mp ho with h | h
      · exact h2 o h hact
      · rcases List.mem_singleton.mp h with rfl
        rfl

theorem addLine_ok (db : DB) (o : Order) (it : MenuItem) (c : Int)
    (h : linesOk db.baskets) : linesOk (addLine db o it c).1.baskets := by
  cases hfind : db.baskets.find? (fun b => b.order == o.id && b.item == it.id) with
  | some b0 =>
    rw [addLine_found db o it c b0 hfind]
    dsimp only
    apply linesOk_map ?_ h
    intro x
    by_cases hx : (x.order == o.id && x.item == it.id) = true
    · have hb0 := List.find?_some hfind
      simp only [Bool.and_eq_true, beq_iff_eq] at hx hb0
      simp [if_pos, hx, updatedLine, hb0.1, hb0.2]
    · simp [hx]
  | none =>
    rw [addLine_new db o it c hfind]
    dsimp only
    apply linesOk_append h
    intro a ha hdup
    have hnp := List.find?_eq_none.mp hfind a ha
    apply hnp
    have h1 : a.order = o.id := by
      have := hdup.1
      simpa [newLine] using this
    have h2 : a.item = it.id := by
      have := hdup.2
      simpa [newLine] using this
    simp [h1, h2]

theorem WF_basketAddH (db : DB) (req : Ident) (i : Nat) (c : Int) (h : WF db) :
    WF (basketAddH db req i c).1 := by
  obtain ⟨h1, h2, h3⟩ := h
  have hro : ordersOk (resolveCustomer db req).1.orders := by
    rw [resolveCustomer_orders]
    exact h1
  have hrz : activesZero (resolveCustomer db req).1.orders := by
    rw [resolveCustomer_orders]
    exact h2
  cases hfind : db.items.find? (fun it => it.id == i) with
  | none =>
    rw [basketAddH_noItem db req i c hfind]
    exact ⟨h1, h2, h3⟩
  | some it =>
    rw [basketAddH_item db req i c it hfind]
    dsimp only
    rw [basketAddGo_eq]
    refine ⟨?_, ?_, ?_⟩
    · show ordersOk _
      rw [addLine_orders]
      exact (getOrCreateActiveOrder_ok _ _ hro hrz).1
    · show activesZero _
      rw [addLine_orders]
      exact (getOrCreateActiveOrder_ok _ _ hro hrz).2
    · apply addLine_ok
      rw [getOrCreateActiveOrder_baskets, resolveCustomer_baskets]
      exact h3

theorem WF_basketDeleteH (db : DB) (req : Ident) (i : Nat) (c : Int) (h : WF db) :
    WF (basketDeleteH db req i c).1 := by
  obtain ⟨h1, h2, h3⟩ := h
  have hro : ordersOk (resolveCustomer db req).1.orders := by
    rw [resolveCustomer_orders]
    exact h1
  have hrz : activesZero (resolveCustomer db req).1.orders := by
    rw [resolveCustomer_orders]
    exact h2
  have hrl : linesOk (resolveCustomer db req).1.baskets := by
    rw [resolveCustomer_baskets]
    exact h3
  cases hfind : (resolveCustomer db req).1.orders.find? (fun o =>
      o.customer == (resolveCustomer db req).2 && o.status == "active") with
  | none =>
    rw [basketDeleteH_noOrder db req i c hfind]
    exact ⟨hro, hrz, hrl⟩
  | some o =>
    rw [basketDeleteH_order db req i c o hfind]
    cases hfind2 : (resolveCustomer db req).1.baskets.find? (fun b =>
        b.order == o.id && b.item == i) with
    | none =>
      rw [removeFromOrder_noLine _ _ _ _ hfind2]
      exact ⟨hro, hrz, hrl⟩
    | some b =>
      by_cases hlt : c < b.quantity
      · rw [removeFromOrder_dec _ _ _ _ b hfind2 hlt]
        refine ⟨hro, hrz, ?_⟩
        apply linesOk_map ?_ hrl
        intro x
        by_cases hx : (x.order == o.id && x.item == i) = true
        · simp [hx]
        · simp [hx]
      · cases hany : (deleteLine (resolveCustomer db req).1 o.id i).baskets.any
            (fun x => x.order == o.id) with
        | true =>
          rw [removeFromOrder_del_keep _ _ _ _ b hfind2 hlt hany]
          exact ⟨hro, hrz, linesOk_filter _ hrl⟩
        | false =>
          rw [removeFromOrder_del_all _ _ _ _ b hfind2 hlt hany]
          exact ⟨ordersOk_filter _ hro, activesZero_filter _ hrz, linesOk_filter _ hrl⟩

theorem WF_orderFinalizeH (db : DB) (req : Ident) (h : WF db) :
    WF (orderFinalizeH db req).1 := by
  obtain ⟨h1, h2, h3⟩ := h
  cases hauth : req.authUser with
  | none =>
    rw [orderFinalizeH_anon db req hauth]
    exact ⟨h1, h2, h3⟩
  | some cid =>
    cases hfind : db.orders.find? (fun o => o.customer == cid && o.status == "active") with
    | none =>
      rw [orderFinalizeH_noActive db req cid hauth hfind]
      exact ⟨h1, h2, h3⟩
    | some o =>
      rw [orderFinalizeH_active db req cid o hauth hfind]
      have hf : ∀ x : Order,
          (if x.id == o.id then
            { x with total_amount := calculate_total_amount db o.id, status := "pending" }
           else x) = x ∨
          (if x.id == o.id then
            { x with total_amount := calculate_total_amount db o.id, status := "pending" }
           else x).status ≠ "active" := by
        intro x
        by_cases hx : (x.id == o.id) = true
        · right
          rw [if_pos hx]
          show ("pending" : String) ≠ "active"
          decide
        · left
          simp [hx]
      exact ⟨ordersOk_map hf h1, activesZero_map hf h2, h3⟩

theorem WF_orderAttachH (db : DB) (oid : Nat) (data : OrderDetailData) (h : WF db) :
    WF (orderAttachH db oid data).1 := by
  obtain ⟨h1, h2, h3⟩ := h
  cases hfind : db.orders.find? (fun o => o.id == oid) with
  | none =>
    rw [orderAttachH_none db oid data hfind]
    exact ⟨h1, h2, h3⟩
  | some o =>
    rw [orderAttachH_some db oid data o hfind]
    have hf : ∀ x : Order,
        (if x.id == o.id then attachedOrder o data else x) = x ∨
        (if x.id == o.id then attachedOrder o data else x).status ≠ "active" := by
      intro x
      by_cases hx : (x.id == o.id) = true
      · right
        rw [if_pos hx]
        show ("payment" : String) ≠ "active"
        decide
      · left
        simp [hx]
    exact ⟨ordersOk_map hf h1, activesZero_map hf h2, h3⟩

theorem WF_applyOp (db : DB) (op : Op) (h : WF db) : WF (applyOp db op) := by
  cases op with
  | basketGet req => exact h
  | basketAdd req i c => exact WF_basketAddH db req i c h
  | basketRemove req i c => exact WF_basketDeleteH db req i c h
  | orderFinalize req => exact WF_orderFinalizeH db req h
  | orderAttach oid d => exact WF_orderAttachH db oid d h

theorem WF_applyOps (db : DB) (ops : List Op) (h : WF db) : WF (applyOps db ops) := by
  induction ops generalizing db with
  | nil => exact h
  | cons op rest ih => exact ih (applyOp db op) (WF_applyOp db op h)

/-! ## Further handler characterisations -/

theorem find?_id_of_mem_nodup {l : List MenuItem} {it : MenuItem}
    (hnd : (l.map (fun x => x.id)).Nodup) (hmem : it ∈ l) :
    l.find? (fun x => x.id == it.id) = some it := by
  induction l with
  | nil => cases hmem
  | cons a t ih =>
    rw [List.map_cons, List.nodup_cons] at hnd
    rcases List.mem_cons.mp hmem with rfl | hmem2
    · exact List.find?_cons_of_pos t (by simp)
    · have hne : ¬ ((fun x : MenuItem => x.id == it.id) a = true) := by
        simp only [beq_iff_eq]
        intro he
        exact hnd.1 (he ▸ List.mem_map_of_mem (fun x => x.id) hmem2)
      rw [List.find?_cons_of_neg t hne]
      exact ih hnd.2 hmem2

theorem addLine_spec (db : DB) (o : Order) (it : MenuItem) (c : Int) :
    (addLine db o it c).2.order = o.id ∧ (addLine db o it c).2.item = it.id ∧
    (addLine db o it c).2.sale_price = it.price - it.discount ∧
    (addLine db o it c).2 ∈ (addLine db o it c).1.baskets := by
  cases hfind : db.baskets.find? (fun b => b.order == o.id && b.item == it.id) with
  | some b0 =>
    have hb0 := List.find?_some hfind
    simp only [Bool.and_eq_true, beq_iff_eq] at hb0
    rw [addLine_found db o it c b0 hfind]
    refine ⟨by simp [updatedLine, hb0.1], by simp [updatedLine, hb0.2],
      by simp [updatedLine], ?_⟩
    have hmem := List.mem_of_find?_eq_some hfind
    have hfb0 : (fun b => if b.order == o.id && b.item == it.id then
        updatedLine b0 it c else b) b0 = updatedLine b0 it c := by
      simp [hb0.1, hb0.2]
    exact List.mem_map.mpr ⟨b0, hmem, hfb0⟩
  | none =>
    rw [addLine_new db o it c hfind]
    refine ⟨rfl, rfl, rfl, ?_⟩
    dsimp only
    exact List.mem_append.mpr (Or.inr (List.mem_singleton.mpr rfl))

theorem basketAddGo_spec (db : DB) (req : Ident) (it : MenuItem) (c : Int) :
    (basketAddGo db req it c).2.item = it.id ∧
    (basketAddGo db req it c).2.sale_price = it.price - it.discount ∧
    (basketAddGo db req it c).2 ∈ (basketAddGo db req it c).1.baskets := by
  rw [basketAddGo_eq]
  have h := addLine_spec
    (getOrCreateActiveOrder (resolveCustomer db req).1 (resolveCustomer db req).2).1
    (getOrCreateActiveOrder (resolveCustomer db req).1 (resolveCustomer db req).2).2 it c
  exact ⟨h.2.1, h.2.2.1, h.2.2.2⟩

theorem basketAddH_orders_of_active (db : DB) (req : Ident) (c : Nat) (iid : Nat) (cnt : Int)
    (hauth : req.authUser = some c) (hz : activeZero db)
    (hex : ∃ o ∈ db.orders, o.customer = c ∧ o.status = "active") :
    (basketAddH db req iid cnt).1.orders = db.orders := by
  cases hfind : db.items.find? (fun it => it.id == iid) with
  | none => rw [basketAddH_noItem db req iid cnt hfind]
  | some it =>
    rw [basketAddH_item db req iid cnt it hfind]
    dsimp only
    rw [basketAddGo_eq, addLine_orders, resolveCustomer_auth db req c hauth]
    show (getOrCreateActiveOrder db c).1.orders = db.orders
    obtain ⟨o, ho, hoc, hos⟩ := hex
    have hp : (fun o : Order =>
        o.customer == c && o.status == "active" && o.total_amount == 0) o = true := by
      have hz0 := hz o ho hos
      simp [hoc, hos, hz0]
    have hsome : (db.orders.find? (fun o : Order =>
        o.customer == c && o.status == "active" && o.total_amount == 0)).isSome :=
      List.find?_isSome.mpr ⟨o, ho, hp⟩
    obtain ⟨o2, ho2⟩ := Option.isSome_iff_exists.mp hsome
    rw [getOrCreateActiveOrder_found db c o2 ho2]

/-! ## The claims -/

/-- C10: retrieving a single menu item by identifier succeeds and returns
the item even when it is archived or unavailable; the archived and
available filters apply only to the listing operation. -/
theorem menu_detail_ignores_flags :
    (∀ (db : DB) (it : MenuItem),
        (db.items.map (fun x => x.id)).Nodup → it ∈ db.items →
        menuItemDetailH db it.id = Except.ok it) ∧
    (∀ (db : DB) (cats : List String) (cat : Option String) (l : List MenuItem),
        menuListH db cats cat = Except.ok l →
        ∀ it ∈ l, it.archived = false ∧ it.available = true) := by
  constructor
  · intro db it hnd hmem
    unfold menuItemDetailH
    rw [find?_id_of_mem_nodup hnd hmem]
  · intro db cats cat l hok it hit
    unfold menuListH at hok
    cases cat with
    | none =>
      rw [Except.ok.injEq] at hok
      subst hok
      have := (List.mem_filter.mp hit).2
      simp only [Bool.and_eq_true, Bool.not_eq_eq_eq_not, Bool.not_true] at this
      exact ⟨by simpa using this.1, this.2⟩
    | some cname =>
      dsimp only at hok
      by_cases hc : cats.contains cname
      · rw [if_pos hc, Except.ok.injEq] at hok
        subst hok
        have h1 := (List.mem_filter.mp hit).1
        have := (List.mem_filter.mp h1).2
        simp only [Bool.and_eq_true, Bool.not_eq_eq_eq_not, Bool.not_true] at this
        exact ⟨by simpa using this.1, this.2⟩
      · rw [if_neg hc] at hok
        cases hok

/-- C10 witness: an archived, unavailable item is still returned by the
detail lookup. -/
theorem menu_detail_ignores_flags_witness :
    menuItemDetailH
      { items := [{ id := 1, name := "x", price := 10, discount := 2, available := false,
                    archived := true, category := "c" }],
        users := [], orders := [], baskets := [],
        nextUserId := 0, nextOrderId := 0, nextItemId := 2 } 1 =
      Except.ok { id := 1, name := "x", price := 10, discount := 2, available := false,
                  archived := true, category := "c" } ∧
    menuListH
      { items := [{ id := 1, name := "x", price := 10, discount := 2, available := false,
                    archived := true, category := "c" }],
        users := [], orders := [], baskets := [],
        nextUserId := 0, nextOrderId := 0, nextItemId := 2 } ["c"] none = Except.ok [] := by
  constructor
  · exact menu_detail_ignores_flags.1 _
      { id := 1, name := "x", price := 10, discount := 2, available := false,
        archived := true, category := "c" } (by decide) (by decide)
  · decide

/-- C7: add-to-basket fails with the not-found error, surfaced as 404,
when the referenced item id does not exist; when it exists the handler
answers with the stored updated line carrying the item reference and the
snapshot sale price. -/
theorem add_missing_item_404 :
    (∀ (db : DB) (req : Ident) (iid : Nat) (cnt : Int),
        db.items.find? (fun it => it.id == iid) = none →
        basketAddH db req iid cnt = (db, Except.error Err.doesNotExist) ∧
        statusOf Err.doesNotExist = 404) ∧
    (∀ (db : DB) (req : Ident) (iid : Nat) (cnt : Int) (it : MenuItem),
        db.items.find? (fun x => x.id == iid) = some it →
        ∃ line : Basket,
          (basketAddH db req iid cnt).2 = Except.ok line ∧
          line.item = it.id ∧ line.sale_price = it.price - it.discount ∧
          line ∈ (basketAddH db req iid cnt).1.baskets) := by
  constructor
  · intro db req iid cnt hfind
    exact ⟨basketAddH_noItem db req iid cnt hfind, rfl⟩
  · intro db req iid cnt it hfind
    rw [basketAddH_item db req iid cnt it hfind]
    exact ⟨(basketAddGo db req it cnt).2, rfl,
      (basketAddGo_spec db req it cnt).1,
      (basketAddGo_spec db req it cnt).2.1,
      (basketAddGo_spec db req it cnt).2.2⟩

/-- C7 witness: a missing item id yields the 404 not-found error; an
existing one yields the updated line. -/
theorem add_missing_item_404_witness :
    basketAddH
      { items := [], users := [], orders := [], baskets := [],
        nextUserId := 0, nextOrderId := 0, nextItemId := 0 }
      { authUser := some 7, session_key := none, freshKey := "k" } 3 1 =
      ({ items := [], users := [], orders := [], baskets := [],
         nextUserId := 0, nextOrderId := 0, nextItemId := 0 },
       Except.error Err.doesNotExist) ∧
    statusOf Err.doesNotExist = 404 ∧
    (∃ line : Basket,
      (basketAddH
        { items := [{ id := 3, name := "x", price := 10, discount := 2, available := true,
                      archived := false, category := "c" }],
          users := [], orders := [], baskets := [],
          nextUserId := 0, nextOrderId := 9, nextItemId := 4 }
        { authUser := some 7, session_key := none, freshKey := "k" } 3 1).2 =
        Except.ok line ∧ line.item = 3 ∧ line.sale_price = 8) := by
  refine ⟨?_, rfl, ?_⟩
  · exact (add_missing_item_404.1 _ _ 3 1 (by decide)).1
  · obtain ⟨line, h1, h2, h3, h4⟩ := add_missing_item_404.2
      { items := [{ id := 3, name := "x", price := 10, discount := 2, available := true,
                    archived := false, category := "c" }],
        users := [], orders := [], baskets := [],
        nextUserId := 0, nextOrderId := 9, nextItemId := 4 }
      { authUser := some 7, session_key := none, freshKey := "k" } 3 1
      { id := 3, name := "x", price := 10, discount := 2, available := true,
        archived := false, category := "c" } (by decide)
    exact ⟨line, h1, h2, h3⟩

def exItem1 : MenuItem :=
  { id := 1, name := "X", price := 10, discount := 2, available := true,
    archived := false, category := "c" }

def exDB1 : DB :=
  { items := [exItem1], users := [{ id := 7, session_key := none, fullName := "" }],
    orders := [], baskets := [], nextUserId := 8, nextOrderId := 100, nextItemId := 2 }

def exReq1 : Ident := { authUser := some 7, session_key := none, freshKey := "k" }

def exPatch1 : ItemPatch :=
  { name := none, price := some 20, discount := none, available := none,
    archived := none, category := none }

/-- The store after adding item 1 once at price 10 and discount 2. -/
def exDB1a : DB := (basketAddH exDB1 exReq1 1 1).1

/-- The store after a staff catalog edit raises the price of item 1 to 20. -/
def exDB1b : DB := (itemPutH exDB1a true 1 exPatch1).1

/-- C1 counterexample: the first add stores sale price 8 on the line of
item 1; after the catalog price changes to 20, adding the same item again
overwrites the stored sale price with 18, so the line does not keep its
originally captured value 8. -/
theorem sale_price_snapshot_ctrex :
    (basketAddH exDB1 exReq1 1 1).2 =
      Except.ok { order := 100, item := 1, quantity := 1, sale_price := 8 } ∧
    (basketAddH exDB1b exReq1 1 1).1.baskets =
      [{ order := 100, item := 1, quantity := 2, sale_price := 18 }] ∧
    ¬ ((basketAddH exDB1b exReq1 1 1).1.baskets =
      [{ order := 100, item := 1, quantity := 2, sale_price := 8 }]) := by
  decide

/-- C1 as amended: the sale price of a line is re-derived from the current
catalog row on every add-to-basket call — each successful add stores
price minus discount as read at that moment, whatever the line held
before. -/
theorem sale_price_rederived :
    ∀ (db : DB) (req : Ident) (iid : Nat) (cnt : Int) (it : MenuItem),
      db.items.find? (fun x => x.id == iid) = some it →
      ∃ line : Basket,
        (basketAddH db req iid cnt).2 = Except.ok line ∧
        line.sale_price = it.price - it.discount ∧
        line ∈ (basketAddH db req iid cnt).1.baskets := by
  intro db req iid cnt it hfind
  rw [basketAddH_item db req iid cnt it hfind]
  exact ⟨(basketAddGo db req it cnt).2, rfl,
    (basketAddGo_spec db req it cnt).2.1,
    (basketAddGo_spec db req it cnt).2.2⟩

/-- C1 witness: on the store where the catalog price of item 1 was already
edited to 20, the re-derived sale price of the next add is 18. -/
theorem sale_price_rederived_witness :
    ∃ line : Basket,
      (basketAddH exDB1b exReq1 1 1).2 = Except.ok line ∧
      line.sale_price = 20 - 2 ∧
      line ∈ (basketAddH exDB1b exReq1 1 1).1.baskets := by
  have h := sale_price_rederived exDB1b exReq1 1 1
    { id := 1, name := "X", price := 20, discount := 2, available := true,
      archived := false, category := "c" } (by decide)
  exact h

/-- C8 counterexample: a non-privileged caller creating an item through
ItemView.post is not rejected with Forbidden and the catalog changes. -/
theorem item_create_not_gated_ctrex :
    (itemPostH
      { items := [], users := [], orders := [], baskets := [],
        nextUserId := 0, nextOrderId := 0, nextItemId := 5 } false
      { name := "soup", price := 10, discount := 0, available := true, category := "c" }).2 ≠
      Except.error Err.forbidden ∧
    (itemPostH
      { items := [], users := [], orders := [], baskets := [],
        nextUserId := 0, nextOrderId := 0, nextItemId := 5 } false
      { name := "soup", price := 10, discount := 0, available := true, category := "c" }).1.items ≠
      ([] : List MenuItem) := by
  decide

/-- C8 as amended: update and archive are gated — a non-privileged caller
gets Forbidden, surfaced as 403, and the store is unchanged — while create
is not gated: ItemView.post behaves identically whatever the privilege of
the caller. -/
theorem item_mutations_gating :
    (∀ (db : DB) (pk : Nat) (p : ItemPatch),
        itemPutH db false pk p = (db, Except.error Err.forbidden)) ∧
    (∀ (db : DB) (iid : Nat),
        itemDeleteH db false iid = (db, Except.error Err.forbidden)) ∧
    statusOf Err.forbidden = 403 ∧
    (∀ (db : DB) (s : Bool) (p : ItemPayload), itemPostH db s p = itemPostH db true p) := by
  refine ⟨?_, ?_, rfl, ?_⟩
  · intro db pk p
    rfl
  · intro db iid
    rfl
  · intro db s p
    rfl

def exDB9 : DB :=
  { items := [], users := [], orders := [], baskets := [],
    nextUserId := 0, nextOrderId := 0, nextItemId := 0 }

def exReq9 : Ident := { authUser := none, session_key := some "s", freshKey := "f" }

/-- C9 counterexample: an anonymous caller whose session key is bound to
no customer record gets an error from GET basket — the handler
dereferences the missing record — not an empty success. -/
theorem basket_get_unbound_anonymous_ctrex :
    basketGetH exDB9 exReq9 = Except.error Err.attributeError ∧
    basketGetH exDB9 exReq9 ≠ Except.ok [] := by
  decide

/-- C9 as amended: GET basket returns an empty success for a resolved
customer without an active order — an authenticated caller, or an
anonymous caller whose session key is already bound to a customer record;
the unbound anonymous caller errs instead. -/
theorem basket_get_no_active_empty :
    (∀ (db : DB) (req : Ident) (c : Nat),
        req.authUser = some c →
        db.orders.find? (fun o => o.customer == c && o.status == "active") = none →
        basketGetH db req = Except.ok []) ∧
    (∀ (db : DB) (req : Ident) (u : CustomUser),
        req.authUser = none →
        db.users.find? (fun x => x.session_key == req.session_key) = some u →
        db.orders.find? (fun o => o.customer == u.id && o.status == "active") = none →
        basketGetH db req = Except.ok []) := by
  constructor
  · intro db req c hauth hfind
    have hc : customerForGet db req = some c := by
      unfold customerForGet
      rw [hauth]
    exact basketGetH_noActive db req c hc hfind
  · intro db req u hauth hu hfind
    have hc : customerForGet db req = some u.id := by
      unfold customerForGet
      rw [hauth]
      dsimp only
      rw [hu]
      rfl
    exact basketGetH_noActive db req u.id hc hfind

/-- C9 witness: empty success both for an authenticated caller and for a
bound anonymous caller with no active order. -/
theorem basket_get_no_active_empty_witness :
    basketGetH
      { items := [], users := [], orders := [], baskets := [],
        nextUserId := 0, nextOrderId := 0, nextItemId := 0 }
      { authUser := some 7, session_key := none, freshKey := "f" } = Except.ok [] ∧
    basketGetH
      { items := [], users := [{ id := 4, session_key := some "s", fullName := "" }],
        orders := [], baskets := [], nextUserId := 5, nextOrderId := 0, nextItemId := 0 }
      { authUser := none, session_key := some "s", freshKey := "f" } = Except.ok [] := by
  constructor
  · exact basket_get_no_active_empty.1 _ _ 7 rfl (by decide)
  · exact basket_get_no_active_empty.2 _ _
      { id := 4, session_key := some "s", fullName := "" } rfl (by decide) (by decide)

def exOrder2 : Order :=
  { id := 1, customer := 7, status := "pending", total_amount := 21,
    payment_type := "card", city := "old", address := "A", delivery_type := "d" }

def exDB2 : DB :=
  { items := [], users := [{ id := 7, session_key := none, fullName := "Bob" }],
    orders := [exOrder2], baskets := [], nextUserId := 8, nextOrderId := 2, nextItemId := 0 }

def exReq2 : Ident := { authUser := some 7, session_key := none, freshKey := "k" }

def exData2 : OrderDetailData :=
  { fullName := none, paymentType := none, city := some "X", address := none,
    deliveryType := none }

/-- C2: the URL table binds POST /order/(id)/ to OrderAPIView, whose post
ignores the id and the body and finalizes the active order of the caller
— here failing with the 500 response and leaving order 1 untouched —
while OrderDetailAPIView.post, the handler the claim describes, would
merge the city, keep the total, set status payment and answer the order
id. The routed behaviour contradicts the claim. -/
theorem order_detail_route_bug :
    resolveView "order/<int:id>/" = some ViewRef.orderAPIView ∧
    postOrderDetailRoute exDB2 exReq2 1 exData2 = (exDB2, Except.error Err.serverError) ∧
    (orderAttachH exDB2 1 exData2).2 = Except.ok 1 ∧
    ({ exOrder2 with city := "X", status := "payment" } ∈
      (orderAttachH exDB2 1 exData2).1.orders) := by
  decide

/-- C3: from any well-formed store, any sequence of basket and order
operations keeps at most one active order per customer; and an add when
the customer already has an active order reuses it — the order table is
unchanged by the add. -/
theorem single_active_order :
    ∀ (db : DB) (ops : List Op), WF db →
      atMostOneActive (applyOps db ops) ∧
      (∀ (req : Ident) (c : Nat) (iid : Nat) (cnt : Int),
        req.authUser = some c →
        (∃ o ∈ (applyOps db ops).orders, o.customer = c ∧ o.status = "active") →
        (basketAddH (applyOps db ops) req iid cnt).1.orders = (applyOps db ops).orders) := by
  intro db ops hwf
  have hwf2 := WF_applyOps db ops hwf
  exact ⟨hwf2.1, fun req c iid cnt hauth hex =>
    basketAddH_orders_of_active (applyOps db ops) req c iid cnt hauth hwf2.2.1 hex⟩

def exReq3 : Ident := { authUser := some 7, session_key := none, freshKey := "k" }

def exDB3 : DB :=
  { items := [{ id := 1, name := "X", price := 10, discount := 2, available := true,
                archived := false, category := "c" }],
    users := [{ id := 7, session_key := none, fullName := "" }],
    orders := [], baskets := [], nextUserId := 8, nextOrderId := 40, nextItemId := 2 }

def exOps3 : List Op := [Op.basketAdd exReq3 1 2]

/-- C3 witness: after one add created the active order, a further add for
the same customer leaves the order table unchanged. -/
theorem single_active_order_witness :
    atMostOneActive (applyOps exDB3 exOps3) ∧
    (basketAddH (applyOps exDB3 exOps3) exReq3 1 2).1.orders = (applyOps exDB3 exOps3).orders := by
  have h := single_active_order exDB3 exOps3 (by decide)
  exact ⟨h.1, h.2 exReq3 7 1 2 rfl (by decide)⟩

def exReq4 : Ident := { authUser := some 7, session_key := none, freshKey := "k" }

def exDB4 : DB :=
  { items := [{ id := 1, name := "X", price := 10, discount := 2, available := true,
                archived := false, category := "c" }],
    users := [{ id := 7, session_key := none, fullName := "" }],
    orders := [], baskets := [], nextUserId := 8, nextOrderId := 100, nextItemId := 2 }

/-- C4: any operation sequence on a well-formed store keeps at most one
basket line per order and item pair; and adding item 1 with count 2 twice
yields the single line with quantity 4, not two lines. -/
theorem basket_line_unique_accumulates :
    (∀ (db : DB) (ops : List Op), WF db → linesUnique (applyOps db ops)) ∧
    (basketAddH (basketAddH exDB4 exReq4 1 2).1 exReq4 1 2).1.baskets =
      [{ order := 100, item := 1, quantity := 4, sale_price := 8 }] := by
  constructor
  · intro db ops h
    exact (WF_applyOps db ops h).2.2
  · decide

/-- C4 witness: line uniqueness after the double add. -/
theorem basket_line_unique_accumulates_witness :
    linesUnique (applyOps exDB4 [Op.basketAdd exReq4 1 2, Op.basketAdd exReq4 1 2]) :=
  basket_line_unique_accumulates.1 exDB4
    [Op.basketAdd exReq4 1 2, Op.basketAdd exReq4 1 2] (by decide)

/-- C5: finalize sets the total of the active order of the caller to the
sum of sale price times quantity over its lines, sets status pending and
answers the order id; with no active order it answers the 500 response,
also for an anonymous caller. -/
theorem finalize_total_and_status :
    (∀ (db : DB) (req : Ident) (c : Nat) (o : Order),
        req.authUser = some c →
        db.orders.find? (fun x => x.customer == c && x.status == "active") = some o →
        (orderFinalizeH db req).2 = Except.ok o.id ∧
        { o with status := "pending", total_amount := calculate_total_amount db o.id } ∈
          (orderFinalizeH db req).1.orders ∧
        calculate_total_amount db o.id =
          ((db.baskets.filter (fun b => b.order == o.id)).map
            (fun b => b.sale_price * b.quantity)).sum) ∧
    (∀ (db : DB) (req : Ident) (c : Nat),
        req.authUser = some c →
        db.orders.find? (fun x => x.customer == c && x.status == "active") = none →
        orderFinalizeH db req = (db, Except.error Err.serverError) ∧
        statusOf Err.serverError = 500) ∧
    (∀ (db : DB) (req : Ident), req.authUser = none →
        orderFinalizeH db req = (db, Except.error Err.serverError)) := by
  refine ⟨?_, ?_, ?_⟩
  · intro db req c o hauth hfind
    rw [orderFinalizeH_active db req c o hauth hfind]
    refine ⟨rfl, ?_, rfl⟩
    show _ ∈ (finalizeOrder db o.id (calculate_total_amount db o.id)).orders
    unfold finalizeOrder
    dsimp only
    have hmem := List.mem_of_find?_eq_some hfind
    refine List.mem_map.mpr ⟨o, hmem, ?_⟩
    simp
  · intro db req c hauth hfind
    exact ⟨orderFinalizeH_noActive db req c hauth hfind, rfl⟩
  · intro db req hauth
    exact orderFinalizeH_anon db req hauth

def exReq5 : Ident := { authUser := some 7, session_key := none, freshKey := "k" }

def exOrder5 : Order :=
  { id := 50, customer := 7, status := "active", total_amount := 0,
    payment_type := "", city := "", address := "", delivery_type := "" }

def exDB5 : DB :=
  { items := [], users := [{ id := 7, session_key := none, fullName := "" }],
    orders := [exOrder5],
    baskets := [{ order := 50, item := 1, quantity := 2, sale_price := 8 },
                { order := 50, item := 2, quantity := 1, sale_price := 5 }],
    nextUserId := 8, nextOrderId := 51, nextItemId := 3 }

/-- C5 witness: lines of sale price 8 quantity 2 and sale price 5
quantity 1 finalize to total 21; a customer without an active order gets
the 500 response. -/
theorem finalize_total_and_status_witness :
    (orderFinalizeH exDB5 exReq5).2 = Except.ok 50 ∧
    ({ exOrder5 with status := "pending", total_amount := (calculate_total_amount exDB5 50) } ∈ (orderFinalizeH exDB5 exReq5).1.orders) ∧
    calculate_total_amount exDB5 50 = 21 ∧
    orderFinalizeH { exDB5 with orders := [] } exReq5 =
      ({ exDB5 with orders := [] }, Except.error Err.serverError) := by
  have h := finalize_total_and_status.1 exDB5 exReq5 7 exOrder5 rfl (by decide)
  refine ⟨h.1, h.2.1, by decide, ?_⟩
  exact (finalize_total_and_status.2.1 { exDB5 with orders := [] } exReq5 7 rfl (by decide)).1

/-- C6: with delta below the current quantity, remove decrements and keeps
the line. With delta at least the quantity it deletes the line — always,
whatever else the order holds: the basket table becomes the old table
without the row of that order and item. When the order then has remaining
lines (the handler's own any-check), the order survives unchanged and the
remaining lines are answered; when none remain, the order is deleted too,
the empty list is answered and a following GET basket answers the empty
success. -/
theorem remove_decrements_or_deletes :
    (∀ (db : DB) (req : Ident) (c : Nat) (iid : Nat) (cnt : Int) (o : Order) (b : Basket),
        req.authUser = some c →
        db.orders.find? (fun x => x.customer == c && x.status == "active") = some o →
        db.baskets.find? (fun x => x.order == o.id && x.item == iid) = some b →
        cnt < b.quantity →
        ({ b with quantity := b.quantity - cnt } ∈ (basketDeleteH db req iid cnt).1.baskets ∧
         (basketDeleteH db req iid cnt).2 =
           Except.ok (linesOf (basketDeleteH db req iid cnt).1 o.id))) ∧
    (∀ (db : DB) (req : Ident) (c : Nat) (iid : Nat) (cnt : Int) (o : Order) (b : Basket),
        WF db →
        req.authUser = some c →
        db.orders.find? (fun x => x.customer == c && x.status == "active") = some o →
        db.baskets.find? (fun x => x.order == o.id && x.item == iid) = some b →
        b.quantity ≤ cnt →
        ((basketDeleteH db req iid cnt).1.baskets =
           db.baskets.filter (fun x => !(x.order == o.id && x.item == iid)) ∧
         (∀ x ∈ (basketDeleteH db req iid cnt).1.baskets, ¬ (x.order = o.id ∧ x.item = iid)) ∧
         ((deleteLine db o.id iid).baskets.any (fun x => x.order == o.id) = true →
           (basketDeleteH db req iid cnt).1.orders = db.orders ∧
           (basketDeleteH db req iid cnt).2 =
             Except.ok (linesOf (basketDeleteH db req iid cnt).1 o.id)) ∧
         ((deleteLine db o.id iid).baskets.any (fun x => x.order == o.id) = false →
           (∀ x ∈ (basketDeleteH db req iid cnt).1.orders, x.id ≠ o.id) ∧
           (basketDeleteH db req iid cnt).2 = Except.ok [] ∧
           basketGetH (basketDeleteH db req iid cnt).1 req = Except.ok []))) := by
  constructor
  · intro db req c iid cnt o b hauth hfo hfb hlt
    have hrc := resolveCustomer_auth db req c hauth
    have h1 : (resolveCustomer db req).1.orders.find? (fun x =>
        x.customer == (resolveCustomer db req).2 && x.status == "active") = some o := by
      rw [hrc]
      exact hfo
    rw [basketDeleteH_order db req iid cnt o h1]
    have h2 : removeFromOrder (resolveCustomer db req).1 o iid cnt =
        removeFromOrder db o iid cnt := by
      rw [hrc]
    rw [h2, removeFromOrder_dec db o iid cnt b hfb hlt]
    constructor
    · show _ ∈ (decrementLine db o.id iid cnt).baskets
      have hkey := List.find?_some hfb
      have hmem := List.mem_of_find?_eq_some hfb
      unfold decrementLine
      dsimp only
      refine List.mem_map.mpr ⟨b, hmem, ?_⟩
      dsimp only
      rw [if_pos hkey]
    · rfl
  · intro db req c iid cnt o b hwf hauth hfo hfb hge
    have hrc := resolveCustomer_auth db req c hauth
    have h1 : (resolveCustomer db req).1.orders.find? (fun x =>
        x.customer == (resolveCustomer db req).2 && x.status == "active") = some o := by
      rw [hrc]
      exact hfo
    rw [basketDeleteH_order db req iid cnt o h1]
    have h2 : removeFromOrder (resolveCustomer db req).1 o iid cnt =
        removeFromOrder db o iid cnt := by
      rw [hrc]
    rw [h2]
    have hnlt : ¬ cnt < b.quantity := Int.not_lt.mpr hge
    cases hany : (deleteLine db o.id iid).baskets.any (fun x => x.order == o.id) with
    | true =>
      rw [removeFromOrder_del_keep db o iid cnt b hfb hnlt hany]
      refine ⟨rfl, ?_, ?_, ?_⟩
      · intro x hx hk
        have hx2 := List.mem_filter.mp hx
        have := hx2.2
        simp [hk.1, hk.2] at this
      · intro _
        exact ⟨rfl, rfl⟩
      · intro hfalse
        exact absurd hfalse (by decide)
    | false =>
      rw [removeFromOrder_del_all db o iid cnt b hfb hnlt hany]
      refine ⟨rfl, ?_, ?_, ?_⟩
      · intro x hx hk
        have hx2 := List.mem_filter.mp hx
        have := hx2.2
        simp [hk.1, hk.2] at this
      · intro htrue
        exact absurd htrue (by decide)
      · intro _
        refine ⟨?_, rfl, ?_⟩
        · intro x hx
          have hx2 := List.mem_filter.mp hx
          simpa using hx2.2
        · have hc : customerForGet (deleteOrder (deleteLine db o.id iid) o.id) req = some c := by
            unfold customerForGet
            rw [hauth]
          apply basketGetH_noActive _ req c hc
          rw [List.find?_eq_none]
          intro x hx hp
          have hx2 := List.mem_filter.mp hx
          have hxid : x.id ≠ o.id := by
            simpa using hx2.2
          have hxdb : x ∈ db.orders := hx2.1
          simp only [Bool.and_eq_true, beq_iff_eq] at hp
          have hpo := List.find?_some hfo
          simp only [Bool.and_eq_true, beq_iff_eq] at hpo
          have hodb := List.mem_of_find?_eq_some hfo
          have hxno : x ≠ o := fun he => hxid (congrArg Order.id he)
          have hsym : Symmetric (fun a b : Order => ¬ activeDup a b) := by
            intro a b hab hdup
            exact hab ⟨hdup.2.1, hdup.1, hdup.2.2.symm⟩
          have hR := List.Pairwise.forall hsym hwf.1 hxdb hodb hxno
          exact hR ⟨hp.2, hpo.2, hp.1.trans hpo.1.symm⟩

def exReq6 : Ident := { authUser := some 7, session_key := none, freshKey := "k" }

def exOrder6 : Order :=
  { id := 60, customer := 7, status := "active", total_amount := 0,
    payment_type := "", city := "", address := "", delivery_type := "" }

def exDB6 : DB :=
  { items := [], users := [{ id := 7, session_key := none, fullName := "" }],
    orders := [exOrder6],
    baskets := [{ order := 60, item := 1, quantity := 3, sale_price := 8 }],
    nextUserId := 8, nextOrderId := 61, nextItemId := 0 }

def exDB6b : DB :=
  { exDB6 with baskets := [{ order := 60, item := 1, quantity := 3, sale_price := 8 },
                           { order := 60, item := 2, quantity := 1, sale_price := 5 }] }

/-- C6 witness: removing 1 of 3 keeps the line at quantity 2. Removing all
3 of the only line deletes line and order and GET basket then answers the
empty success; removing all 3 on an order that also holds another line
deletes just that line and keeps the order, answering the remaining
line. -/
theorem remove_decrements_or_deletes_witness :
    ({ order := 60, item := 1, quantity := 2, sale_price := 8 } ∈
      (basketDeleteH exDB6b exReq6 1 1).1.baskets) ∧
    (basketDeleteH exDB6 exReq6 1 3).2 = Except.ok [] ∧
    basketGetH (basketDeleteH exDB6 exReq6 1 3).1 exReq6 = Except.ok [] ∧
    (basketDeleteH exDB6b exReq6 1 3).1.baskets =
      [{ order := 60, item := 2, quantity := 1, sale_price := 5 }] ∧
    (basketDeleteH exDB6b exReq6 1 3).1.orders = exDB6b.orders := by
  have hA := remove_decrements_or_deletes.1 exDB6b exReq6 7 1 1 exOrder6
    { order := 60, item := 1, quantity := 3, sale_price := 8 }
    rfl (by decide) (by decide) (by decide)
  have hB1 := remove_decrements_or_deletes.2 exDB6 exReq6 7 1 3 exOrder6
    { order := 60, item := 1, quantity := 3, sale_price := 8 }
    (by decide) rfl (by decide) (by decide) (by decide)
  have hB2 := remove_decrements_or_deletes.2 exDB6b exReq6 7 1 3 exOrder6
    { order := 60, item := 1, quantity := 3, sale_price := 8 }
    (by decide) rfl (by decide) (by decide) (by decide)
  refine ⟨?_, (hB1.2.2.2 (by decide)).2.1, (hB1.2.2.2 (by decide)).2.2,
    (hB2.1).trans (by decide), (hB2.2.2.1 (by decide)).1⟩
  have := hA.1
  simpa using this
